import Mathlib

/-!
Verification of the request-adaptation and response-sanitization contract of the
two HTTP adapter classes in this repository: `OpenAIEngine`
(src/src/engines/openai_engine.py) and `OllamaEngine` (src/ollama_engine.py).

The embedding models Python strings as `List Char`, Python values reaching the
adapters as the inductive `PyVal`, the loosely-typed request object as the
`Argument` structure (optional attributes model `hasattr` probing), the chat
payload dict as the `Payload` structure (optional fields model optional dict
keys), and the metadata dict returned by `forward` as the `Metadata` structure.
Provider behaviour (HTTP status, response body, network failure, unexpected
exception) is an explicit `Behavior` parameter of `forward`; the `raised`
parameter of `prepare` models an exception escaping the body of its
`try:` block (the only way its `except` fallback is reached).
-/

namespace SymaiDemo

/-- Python values that can reach the adapters: strings, numbers (exact
rationals stand in for Python ints/floats; no arithmetic is performed on
them), booleans, lists, string-keyed dicts, and opaque objects carried with
their `str()` rendering and truthiness. -/
inductive PyVal where
  | str : List Char → PyVal
  | num : ℚ → PyVal
  | bool : Bool → PyVal
  | list : List PyVal → PyVal
  | dict : List (List Char × PyVal) → PyVal
  | obj : List Char → Bool → PyVal

/-- Python truthiness (`if value:`) for the modelled values: empty strings,
empty collections, zero and `False` are falsy; objects carry their own flag. -/
def truthy : PyVal → Bool
  | .str s => !s.isEmpty
  | .num q => if q = 0 then false else true
  | .bool b => b
  | .list l => !l.isEmpty
  | .dict d => !d.isEmpty
  | .obj _ t => t

/-- Rendering of a rational standing in for a Python number (Python's exact
float formatting is abstracted; no claim depends on it). -/
def ratRepr (q : ℚ) : List Char :=
  if q.den = 1 then (toString q.num).toList
  else (toString q.num).toList ++ '/' :: (toString q.den).toList

/-- Comma-separated join used by the `repr` rendering of lists and dicts. -/
def joinComma : List (List Char) → List Char
  | [] => []
  | [x] => x
  | x :: t => x ++ ',' :: ' ' :: joinComma t

/-- Python `repr`-style rendering, fuel-indexed to keep the recursion
structural (the fuel is always chosen at least as large as the nesting depth,
so the fuel-exhaustion arms are unreachable); string escaping is abstracted. -/
def pyReprAux : Nat → PyVal → List Char
  | _, .str s => Char.ofNat 39 :: (s ++ [Char.ofNat 39])
  | _, .num q => ratRepr q
  | _, .bool b => if b then "True".toList else "False".toList
  | _, .obj r _ => r
  | 0, .list _ => "[...]".toList
  | f + 1, .list l => '[' :: (joinComma (l.map (pyReprAux f)) ++ [']'])
  | 0, .dict _ => "...".toList
  | f + 1, .dict d =>
      Char.ofNat 123 ::
        (joinComma (d.map (fun kv =>
          Char.ofNat 39 :: (kv.1 ++ Char.ofNat 39 :: ':' :: ' ' :: pyReprAux f kv.2)))
         ++ [Char.ofNat 125])

mutual
/-- Structural size of a value, used as rendering fuel (it bounds nesting depth). -/
def pySize : PyVal → Nat
  | .str _ => 1
  | .num _ => 1
  | .bool _ => 1
  | .obj _ _ => 1
  | .list l => 1 + pySizeList l
  | .dict d => 1 + pySizeDict d

/-- Combined size of the elements of a list value. -/
def pySizeList : List PyVal → Nat
  | [] => 0
  | v :: t => pySize v + pySizeList t

/-- Combined size of the values of a dict. -/
def pySizeDict : List (List Char × PyVal) → Nat
  | [] => 0
  | kv :: t => pySize kv.2 + pySizeDict t
end

/-- Python `repr` of a value (fuel instantiated with the value's size). -/
def pyRepr (v : PyVal) : List Char := pyReprAux (pySize v) v

/-- Python `str()` of a value: identity on strings, the object's own
rendering for opaque objects, `repr`-style otherwise (mirrors how f-strings
and `str(...)` render the values the adapters touch). -/
def pyStr : PyVal → List Char
  | .str s => s
  | .obj r _ => r
  | v => pyRepr v

/-- The message dict `{"role": "user", "content": c}` built by the adapters. -/
def userMsg (c : List Char) : PyVal :=
  .dict [("role".toList, .str "user".toList), ("content".toList, .str c)]

/-- Python whitespace stripped by `str.strip()` (the ASCII set). -/
def isPySpace (c : Char) : Bool :=
  c == ' ' || c == '\t' || c == '\n' || c == '\r' || c == Char.ofNat 11 || c == Char.ofNat 12

/-- Python `str.strip()`: drop leading whitespace, then trailing whitespace. -/
def trim (l : List Char) : List Char :=
  (l.dropWhile isPySpace).rdropWhile isPySpace

/-- The literal open tag of the reasoning-trace pattern `r'<think>.*?</think>'`. -/
def openTag : List Char := ['<', 't', 'h', 'i', 'n', 'k', '>']

/-- The literal close tag of the reasoning-trace pattern. -/
def closeTag : List Char := ['<', '/', 't', 'h', 'i', 'n', 'k', '>']

/-- Scan for the first occurrence of the close tag; on success return the text
after it (the non-greedy `.*?` picks exactly this nearest close tag). -/
def skipToClose : List Char → Option (List Char)
  | [] => none
  | c :: cs =>
    if closeTag.isPrefixOf (c :: cs) then some ((c :: cs).drop 8)
    else skipToClose cs

/-- One left-to-right pass of `re.sub(r'<think>.*?</think>', '', s, flags=re.DOTALL)`:
at each position, if the open tag matches and a close tag follows, the
shortest such block is removed and scanning resumes after it (the spliced
junction is not rescanned, exactly as `re.sub` continues past each match);
if the open tag matches but no close tag ever follows, no further match can
start anywhere, so the rest is returned unchanged.  Fuel-indexed to keep the
recursion structural; fuel `s.length` always suffices since every step
consumes at least one character. -/
def removeBlocksAux : Nat → List Char → List Char
  | 0, s => s
  | _ + 1, [] => []
  | f + 1, c :: cs =>
    if openTag.isPrefixOf (c :: cs) then
      match skipToClose ((c :: cs).drop 7) with
      | some rest => removeBlocksAux f rest
      | none => c :: cs
    else
      c :: removeBlocksAux f cs

/-- All think-blocks removed, as `re.sub` leaves the string. -/
def removeBlocks (s : List Char) : List Char := removeBlocksAux s.length s

/-- `content[content.rfind('</think>') + 8:]` when a close tag occurs:
the text after the last occurrence of the close tag, `none` when
`rfind` returns `-1`. -/
def afterLastClose : List Char → Option (List Char)
  | [] => none
  | c :: cs =>
    match afterLastClose cs with
    | some r => some r
    | none => if closeTag.isPrefixOf (c :: cs) then some ((c :: cs).drop 8) else none

/-- `OllamaEngine._extract_final_response` / `OpenAIEngine._extract_final_response`
(the two methods are textually identical): empty input is returned as is;
otherwise all think-blocks are removed and the result stripped; if that is
empty, fall back to the stripped text after the last close tag, or to the
stripped original when no close tag occurs. -/
def extract_final_response (content : List Char) : List Char :=
  if content = [] then content
  else if trim (removeBlocks content) = [] then
    match afterLastClose content with
    | some r => trim r
    | none => trim content
  else trim (removeBlocks content)

/-- Whether a complete think-block occurs in `s`: an open tag with a close tag
somewhere after it (the condition under which another removal pass would
still remove something). -/
def hasBlock : List Char → Bool
  | [] => false
  | c :: cs =>
    (openTag.isPrefixOf (c :: cs) && (skipToClose ((c :: cs).drop 7)).isSome) || hasBlock cs

/-- Python `pat in s` for strings: substring occurrence. -/
def containsSubstr (pat : List Char) : List Char → Bool
  | [] => pat.isEmpty
  | c :: cs => pat.isPrefixOf (c :: cs) || containsSubstr pat cs

/-! ## The request object and `prepare` -/

/-- The keyword options the engines read from `argument.kwargs` (a dict whose
other keys are never touched); `none` models an absent key, so `kwargs.get`
becomes `Option.getD` and `key in kwargs` becomes `Option.isSome`. -/
structure Kwargs where
  context : Option PyVal
  temperature : Option PyVal
  max_tokens : Option PyVal
  top_p : Option PyVal
  frequency_penalty : Option PyVal
  presence_penalty : Option PyVal
  stop : Option PyVal

/-- The attributes of `argument.prop` probed by `prepare`; `none` models an
attribute for which `hasattr` is false (`instanceVal` stands for the Python
attribute `instance`, a Lean keyword). -/
structure PropBag where
  preprocessed_input : Option PyVal
  processed_input : Option PyVal
  instanceVal : Option PyVal

/-- The framework-supplied request object as `prepare` sees it. -/
structure Argument where
  prop : PropBag
  kwargs : Kwargs

/-- `hasattr(argument.prop, a) and argument.prop.a` for an optional attribute. -/
def optTruthy : Option PyVal → Bool
  | none => false
  | some v => truthy v

/-- The default prompt used when no input source is found, and by the
`except` fallback of `prepare`. -/
def defaultPrompt : List Char := "Please provide a helpful response.".toList

/-- The f-string `f"Data: {argument.prop.instance}\nContext: {context}\nAnswer:"`. -/
def dataCtx (inst context : PyVal) : List Char :=
  "Data: ".toList ++ pyStr inst ++ "\nContext: ".toList ++ pyStr context ++ "\nAnswer:".toList

/-- The prompt-location chain at the top of `prepare` (identical in both
engines): preprocessed input, else processed input, else the instance
attribute (merged with the `context` option when that is truthy), else the
fixed default string.  The `getD` defaults are never used: each branch is
guarded by `optTruthy`, which implies the attribute is present. -/
def locate_prompts (arg : Argument) : PyVal :=
  if optTruthy arg.prop.preprocessed_input then arg.prop.preprocessed_input.getD (.str [])
  else if optTruthy arg.prop.processed_input then arg.prop.processed_input.getD (.str [])
  else if optTruthy arg.prop.instanceVal then
    if truthy (arg.kwargs.context.getD (.str [])) then
      .str (dataCtx (arg.prop.instanceVal.getD (.str [])) (arg.kwargs.context.getD (.str [])))
    else .str (pyStr (arg.prop.instanceVal.getD (.str [])))
  else .str defaultPrompt

/-- The per-element rule of the multi-message branch: dicts pass through
verbatim, anything else is wrapped as a stringified user message. -/
def normElem : PyVal → PyVal
  | .dict d => .dict d
  | p => userMsg (pyStr p)

/-- The `messages` normalization of `prepare` (identical in both engines):
a one-element list keeps a dict verbatim or wraps the stringified element; a
list of any other length maps every element through the dict/wrap rule; a
plain string becomes one user message; any other value is stringified and
wrapped. -/
def normalize_messages : PyVal → List PyVal
  | .list l =>
    match l with
    | [p] =>
      match p with
      | .dict d => [.dict d]
      | p => [userMsg (pyStr p)]
    | l => l.map (fun p =>
        match p with
        | .dict d => .dict d
        | p => userMsg (pyStr p))
  | .str s => [userMsg s]
  | v => [userMsg (pyStr v)]

/-- The chat payload dict written to `argument.prop.prepared_input`; the five
mandatory keys are fields, the four passthrough keys are optional fields
(`none` models an absent key). `stop` is only ever set by the OpenAI variant. -/
structure Payload where
  model : List Char
  messages : List PyVal
  temperature : PyVal
  max_tokens : PyVal
  stream : Bool
  top_p : Option PyVal
  frequency_penalty : Option PyVal
  presence_penalty : Option PyVal
  stop : Option PyVal

/-- The fallback payload built in the `except` branch of `prepare` (identical
in both engines): the fixed default prompt and default sampling parameters,
independent of the request. -/
def fallbackPayload (modelName : List Char) : Payload where
  model := modelName
  messages := [userMsg defaultPrompt]
  temperature := .num (7 / 10)
  max_tokens := .num 2000
  stream := false
  top_p := none
  frequency_penalty := none
  presence_penalty := none
  stop := none

/-- The payload built by the body of `OpenAIEngine.prepare`'s `try:` block. -/
def openaiPayload (modelName : List Char) (arg : Argument) : Payload where
  model := modelName
  messages := normalize_messages (locate_prompts arg)
  temperature := arg.kwargs.temperature.getD (.num (7 / 10))
  max_tokens := arg.kwargs.max_tokens.getD (.num 2000)
  stream := false
  top_p := arg.kwargs.top_p
  frequency_penalty := arg.kwargs.frequency_penalty
  presence_penalty := arg.kwargs.presence_penalty
  stop := arg.kwargs.stop

/-- The payload built by the body of `OllamaEngine.prepare`'s `try:` block;
unlike the OpenAI variant it never copies `stop` through. -/
def ollamaPayload (modelName : List Char) (arg : Argument) : Payload where
  model := modelName
  messages := normalize_messages (locate_prompts arg)
  temperature := arg.kwargs.temperature.getD (.num (7 / 10))
  max_tokens := arg.kwargs.max_tokens.getD (.num 2000)
  stream := false
  top_p := arg.kwargs.top_p
  frequency_penalty := arg.kwargs.frequency_penalty
  presence_penalty := arg.kwargs.presence_penalty
  stop := none

/-- `OpenAIEngine.prepare`: the value it stores into
`argument.prop.prepared_input`.  The method itself returns `None` and never
lets an exception escape: its whole body is one `try/except Exception`
statement whose handler stores the fallback payload; `raised` models an
exception escaping the `try:` body. -/
def OpenAIEngine.prepare (modelName : List Char) (arg : Argument) (raised : Bool) : Payload :=
  if raised then fallbackPayload modelName else openaiPayload modelName arg

/-- `OllamaEngine.prepare`, with the same try/except structure. -/
def OllamaEngine.prepare (modelName : List Char) (arg : Argument) (raised : Bool) : Payload :=
  if raised then fallbackPayload modelName else ollamaPayload modelName arg

/-- The request of the documented scenario: `preprocessed_input` set to
"Translate to German: Hello" and no keyword options supplied. -/
def scenarioArg : Argument :=
  ⟨⟨some (.str "Translate to German: Hello".toList), none, none⟩,
    ⟨none, none, none, none, none, none, none⟩⟩

/-! ## Provider behaviour and `forward` -/

/-- The metadata dict returned by `forward`; mandatory keys are fields,
keys present only on some paths are optional fields. -/
structure Metadata where
  model : List Char
  base_url : List Char
  engine : List Char
  usage : Option PyVal
  raw_content : Option (List Char)
  error : Option Bool
  status : Option (List Char)
  http_status : Option Nat

/-- What the provider round trip does on a given call: an HTTP response
(status code, reason phrase, and a decoded JSON body or `none` for an
undecodable body), a network-level `requests` exception at request time, or
any other unexpected exception inside `forward`'s `try:` body. -/
inductive Behavior where
  | ok (status : Nat) (reason : List Char) (body : Option PyVal)
  | netErr (msg : List Char)
  | unexpected (msg : List Char)

/-- Association-list lookup for dict values. -/
def pyLookup (k : List Char) : List (List Char × PyVal) → Option PyVal
  | [] => none
  | (a, v) :: t => if a = k then some v else pyLookup k t

/-- Python `len(...)`: defined for strings, lists and dicts; `none` models
the `TypeError` raised on other values. -/
def pyLen : PyVal → Option Nat
  | .str s => some s.length
  | .list l => some l.length
  | .dict d => some d.length
  | _ => none

/-- Stand-in text for the runtime-specific message of an exception raised
while digging into the decoded body (`TypeError` / `KeyError`). -/
def typeErrMsg : List Char := "TypeError".toList

/-- `if "choices" in result and len(result["choices"]) > 0:` followed by
`result["choices"][0]["message"]["content"]`, evaluated with Python's
semantics: `.ok none` when the condition is false (the no-content branch),
`.ok (some raw)` when a string content is extracted, `.error m` when any of
the steps raises (non-dict containers, missing keys, non-string content —
a non-string content also raises later, in `re.sub` or in the
`len(raw_content)` metadata line, so it is folded into the error case). -/
def getRawContent : PyVal → Except (List Char) (Option (List Char))
  | .dict kvs =>
    match pyLookup "choices".toList kvs with
    | none => .ok none
    | some v =>
      match pyLen v with
      | none => .error typeErrMsg
      | some 0 => .ok none
      | some (_ + 1) =>
        match v with
        | .list (x :: _) =>
          match x with
          | .dict m =>
            match pyLookup "message".toList m with
            | some (.dict mm) =>
              match pyLookup "content".toList mm with
              | some (.str c) => .ok (some c)
              | _ => .error typeErrMsg
            | _ => .error typeErrMsg
          | _ => .error typeErrMsg
        | _ => .error typeErrMsg
  | .list l => if l.any (fun x => match x with | .str s => s = "choices".toList | _ => false)
               then .error typeErrMsg else .ok none
  | .str s => if containsSubstr "choices".toList s then .error typeErrMsg else .ok none
  | _ => .error typeErrMsg

/-- The `usage` object copied into metadata when present in the decoded body. -/
def pyUsage : PyVal → Option PyVal
  | .dict kvs => pyLookup "usage".toList kvs
  | _ => none

/-- `raw_content[:200] + "..." if len(raw_content) > 200 else raw_content`. -/
def truncateRaw (raw : List Char) : List Char :=
  if 200 < raw.length then raw.take 200 ++ "...".toList else raw

/-- The message of the `requests.HTTPError` raised by `raise_for_status` for
a 4xx/5xx status: `"{code} Client Error: {reason} for url: {url}"` (or
`Server Error` for 5xx). -/
def httpErrorString (status : Nat) (reason url : List Char) : List Char :=
  (toString status).toList
    ++ (if status < 500 then " Client Error: " else " Server Error: ").toList
    ++ reason ++ " for url: ".toList ++ url

/-- Stand-in text for the runtime-specific message of a JSON decode error. -/
def jsonDecodeMsg : List Char := "Expecting value: line 1 column 1 (char 0)".toList

/-- `OpenAIEngine.forward`: returns the `(list_of_responses, metadata)` pair
for each provider behaviour.  Every failure path returns normally with
`error := some true` and a `status` tag; mid-processing metadata mutation
before a raising line is not modelled (no claim observes it). -/
def OpenAIEngine.forward (modelName baseUrl : List Char) (b : Behavior) :
    List (List Char) × Metadata :=
  let base : Metadata :=
    { model := modelName, base_url := baseUrl, engine := "openai-comp".toList,
      usage := none, raw_content := none, error := none, status := none, http_status := none }
  match b with
  | .netErr msg =>
    (["Error: API connection error: ".toList ++ msg],
     { base with error := some true, status := some "connection_error".toList })
  | .unexpected msg =>
    (["Error: Unexpected error: ".toList ++ msg],
     { base with error := some true, status := some "internal_error".toList })
  | .ok status reason body =>
    if 400 ≤ status ∧ status ≤ 599 then
      let errMsg :=
        if status = 401 then "Authentication failed. Please check your API key.".toList
        else "API request failed (HTTP ".toList ++ ((toString status).toList ++ ("): ".toList
             ++ httpErrorString status reason (baseUrl ++ "/chat/completions".toList)))
      (["Error: ".toList ++ errMsg],
       { base with error := some true, status := some "api_error".toList,
                   http_status := some status })
    else
      match body with
      | none =>
        (["Error: Failed to decode API response: ".toList ++ jsonDecodeMsg],
         { base with error := some true, status := some "invalid_response".toList })
      | some result =>
        match getRawContent result with
        | .error m =>
          (["Error: Unexpected error: ".toList ++ m],
           { base with error := some true, status := some "internal_error".toList })
        | .ok none =>
          (["Error: No response content".toList],
           { base with error := some true, status := some "no_content".toList })
        | .ok (some raw) =>
          let clean := extract_final_response raw
          let meta := { base with usage := pyUsage result, raw_content := some (truncateRaw raw) }
          if clean = [] then
            (["Error: No valid response generated".toList],
             { meta with error := some true, status := some "empty_response".toList })
          else ([clean], meta)

/-- `OllamaEngine.forward`: the same transport steps, but every failure is
reported only through the returned text — the metadata never gains an error
flag or status tag, and 4xx/5xx statuses, network failures and (with modern
`requests`, also undecodable bodies) all collapse into the one
`RequestException` message. -/
def OllamaEngine.forward (modelName baseUrl : List Char) (b : Behavior) :
    List (List Char) × Metadata :=
  let base : Metadata :=
    { model := modelName, base_url := baseUrl, engine := "ollama".toList,
      usage := none, raw_content := none, error := none, status := none, http_status := none }
  match b with
  | .netErr msg =>
    (["Error: Ollama API request failed: ".toList ++ msg], base)
  | .unexpected msg =>
    (["Error: Unexpected error in OllamaEngine.forward: ".toList ++ msg], base)
  | .ok status reason body =>
    if 400 ≤ status ∧ status ≤ 599 then
      (["Error: Ollama API request failed: ".toList
          ++ httpErrorString status reason (baseUrl ++ "/chat/completions".toList)], base)
    else
      match body with
      | none =>
        (["Error: Failed to decode Ollama response: ".toList ++ jsonDecodeMsg], base)
      | some result =>
        match getRawContent result with
        | .error m =>
          (["Error: Unexpected error in OllamaEngine.forward: ".toList ++ m], base)
        | .ok none => (["No response generated".toList], base)
        | .ok (some raw) =>
          let clean := extract_final_response raw
          let meta := { base with usage := pyUsage result, raw_content := some (truncateRaw raw) }
          ((if clean = [] then ["No response generated".toList] else [clean]), meta)

/-! ## Helper lemmas about the stripper -/

theorem skipToClose_length : ∀ (l r : List Char), skipToClose l = some r → r.length < l.length := by
  intro l
  induction l with
  | nil => intro r h; cases h
  | cons c cs ih =>
    intro r h
    unfold skipToClose at h
    cases hc : closeTag.isPrefixOf (c :: cs) with
    | true =>
      rw [hc] at h
      simp only [if_true] at h
      cases h
      simp only [List.length_drop, List.length_cons]
      omega
    | false =>
      rw [hc] at h
      simp only [Bool.false_eq_true, if_false] at h
      exact Nat.lt_trans (ih r h) (Nat.lt_succ_self _)

theorem removeBlocksAux_nil : ∀ (f : Nat), removeBlocksAux f [] = [] := by
  intro f; cases f <;> rfl

theorem removeBlocksAux_congr : ∀ (f g : Nat) (s : List Char),
    s.length ≤ f → s.length ≤ g → removeBlocksAux f s = removeBlocksAux g s := by
  intro f
  induction f with
  | zero =>
    intro g s hf _
    have hs : s = [] := List.eq_nil_of_length_eq_zero (Nat.le_zero.mp hf)
    subst hs
    rw [removeBlocksAux_nil, removeBlocksAux_nil]
  | succ f ih =>
    intro g s hf hg
    cases s with
    | nil => rw [removeBlocksAux_nil, removeBlocksAux_nil]
    | cons c cs =>
      cases g with
      | zero => simp at hg
      | succ g =>
        show removeBlocksAux (f + 1) (c :: cs) = removeBlocksAux (g + 1) (c :: cs)
        unfold removeBlocksAux
        cases hop : openTag.isPrefixOf (c :: cs) with
        | true =>
          simp only [if_true]
          cases hsk : skipToClose ((c :: cs).drop 7) with
          | none => rfl
          | some rest =>
            have h1 : rest.length < (c :: cs).length := by
              have h2 := skipToClose_length _ _ hsk
              have h3 : ((c :: cs).drop 7).length ≤ (c :: cs).length := by
                simp only [List.length_drop]; omega
              omega
            exact ih g rest (by omega) (by omega)
        | false =>
          simp only [Bool.false_eq_true, if_false, List.cons.injEq, true_and]
          exact ih g cs (by simp at hf; omega) (by simp at hg; omega)

theorem removeBlocksAux_of_no_block : ∀ (f : Nat) (s : List Char),
    hasBlock s = false → removeBlocksAux f s = s := by
  intro f
  induction f with
  | zero => intro s _; rfl
  | succ f ih =>
    intro s h
    cases s with
    | nil => rfl
    | cons c cs =>
      unfold hasBlock at h
      obtain ⟨h1, h2⟩ := Bool.or_eq_false_iff.mp h
      unfold removeBlocksAux
      cases hop : openTag.isPrefixOf (c :: cs) with
      | true =>
        rw [hop, Bool.true_and] at h1
        cases hsk : skipToClose ((c :: cs).drop 7) with
        | some r => rw [hsk] at h1; simp at h1
        | none => simp only [if_true, hsk]
      | false =>
        simp only [Bool.false_eq_true, if_false, List.cons.injEq, true_and]
        exact ih cs h2

theorem removeBlocks_of_no_block (s : List Char) (h : hasBlock s = false) :
    removeBlocks s = s :=
  removeBlocksAux_of_no_block s.length s h

theorem dropWhile_head_false {p : Char → Bool} :
    ∀ {l : List Char} {x : Char} {xs : List Char},
      List.dropWhile p l = x :: xs → p x = false := by
  intro l
  induction l with
  | nil => intro x xs h; cases h
  | cons a as ih =>
    intro x xs h
    cases ha : p a with
    | true => rw [List.dropWhile_cons_of_pos (by simp [ha])] at h; exact ih h
    | false =>
      rw [List.dropWhile_cons_of_neg (by simp [ha])] at h
      cases h
      exact ha

theorem trim_idem (l : List Char) : trim (trim l) = trim l := by
  unfold trim
  have hA : List.dropWhile isPySpace ((List.dropWhile isPySpace l).rdropWhile isPySpace)
      = (List.dropWhile isPySpace l).rdropWhile isPySpace := by
    cases hB : (List.dropWhile isPySpace l).rdropWhile isPySpace with
    | nil => rfl
    | cons b bs =>
      obtain ⟨t, ht⟩ := List.rdropWhile_prefix isPySpace (List.dropWhile isPySpace l)
      rw [hB] at ht
      have hb : isPySpace b = false := dropWhile_head_false (p := isPySpace) ht.symm
      exact List.dropWhile_cons_of_neg (by simp [hb])
  rw [hA, List.rdropWhile_idempotent]

theorem trim_nil : trim [] = [] := rfl

theorem extract_trimmed (s : List Char) :
    trim (extract_final_response s) = extract_final_response s := by
  unfold extract_final_response
  split
  · next h => rw [h]; exact trim_nil
  · split
    · split
      · exact trim_idem _
      · exact trim_idem _
    · exact trim_idem _

theorem isPrefixOf_self_append : ∀ (p z : List Char), p.isPrefixOf (p ++ z) = true := by
  intro p z
  induction p with
  | nil => simp [List.isPrefixOf]
  | cons a as ih => simp only [List.cons_append, List.isPrefixOf_cons₂_self, ih]

theorem openTag_not_prefix_cons {x : Char} (hx : x ≠ '<') (t : List Char) :
    openTag.isPrefixOf (x :: t) = false := by
  cases hbeq : ('<' == x) with
  | true => exact absurd (eq_of_beq hbeq).symm hx
  | false => simp [openTag, List.isPrefixOf, hbeq]

theorem closeTag_not_prefix_cons {x : Char} (hx : x ≠ '<') (t : List Char) :
    closeTag.isPrefixOf (x :: t) = false := by
  cases hbeq : ('<' == x) with
  | true => exact absurd (eq_of_beq hbeq).symm hx
  | false => simp [closeTag, List.isPrefixOf, hbeq]

theorem skipToClose_append_close : ∀ (b c : List Char), '<' ∉ b →
    skipToClose (b ++ (closeTag ++ c)) = some c := by
  intro b
  induction b with
  | nil =>
    intro c _
    have hpre : closeTag.isPrefixOf ('<' :: '/' :: 't' :: 'h' :: 'i' :: 'n' :: 'k' :: '>' :: c) = true :=
      isPrefixOf_self_append closeTag c
    show skipToClose ('<' :: '/' :: 't' :: 'h' :: 'i' :: 'n' :: 'k' :: '>' :: c) = some c
    unfold skipToClose
    rw [hpre]
    simp only [if_true, List.drop_succ_cons, List.drop_zero]
  | cons x b' ih =>
    intro c hb
    have hx : x ≠ '<' := fun h => hb (by rw [h]; exact List.mem_cons_self _ _)
    show skipToClose (x :: (b' ++ (closeTag ++ c))) = some c
    unfold skipToClose
    rw [closeTag_not_prefix_cons hx]
    simp only [Bool.false_eq_true, if_false]
    exact ih c (fun h => hb (List.mem_cons_of_mem _ h))

theorem removeBlocksAux_through : ∀ (a : List Char) (f : Nat) (b c : List Char),
    (a ++ (openTag ++ (b ++ (closeTag ++ c)))).length ≤ f → '<' ∉ a → '<' ∉ b →
    removeBlocksAux f (a ++ (openTag ++ (b ++ (closeTag ++ c)))) = a ++ removeBlocks c := by
  intro a
  induction a with
  | nil =>
    intro f b c hf _ hb
    rw [List.nil_append] at hf ⊢
    cases f with
    | zero =>
      exfalso
      have h0 := List.eq_nil_of_length_eq_zero (Nat.le_zero.mp hf)
      simp [openTag] at h0
    | succ f =>
      have hop : openTag.isPrefixOf
          ('<' :: 't' :: 'h' :: 'i' :: 'n' :: 'k' :: '>' :: (b ++ (closeTag ++ c))) = true :=
        isPrefixOf_self_append openTag _
      show removeBlocksAux (f + 1)
          ('<' :: 't' :: 'h' :: 'i' :: 'n' :: 'k' :: '>' :: (b ++ (closeTag ++ c))) = removeBlocks c
      unfold removeBlocksAux
      rw [hop]
      simp only [if_true, List.drop_succ_cons, List.drop_zero]
      rw [skipToClose_append_close b c hb]
      have hc : c.length ≤ f := by
        have h1 := hf
        simp only [openTag, closeTag, List.length_append, List.length_cons, List.length_nil] at h1
        omega
      exact removeBlocksAux_congr f c.length c hc (Nat.le_refl _)
  | cons x a' ih =>
    intro f b c hf ha hb
    have hx : x ≠ '<' := fun h => ha (by rw [h]; exact List.mem_cons_self _ _)
    cases f with
    | zero => simp at hf
    | succ f =>
      show removeBlocksAux (f + 1) (x :: (a' ++ (openTag ++ (b ++ (closeTag ++ c)))))
          = x :: (a' ++ removeBlocks c)
      unfold removeBlocksAux
      rw [openTag_not_prefix_cons hx]
      simp only [Bool.false_eq_true, if_false, List.cons.injEq, true_and]
      exact ih f b c (by simp at hf ⊢; omega) (fun h => ha (List.mem_cons_of_mem _ h)) hb

theorem removeBlocks_through (a b c : List Char) (ha : '<' ∉ a) (hb : '<' ∉ b) :
    removeBlocks (a ++ (openTag ++ (b ++ (closeTag ++ c)))) = a ++ removeBlocks c :=
  removeBlocksAux_through a _ b c (Nat.le_refl _) ha hb

theorem extract_of_fixed (t : List Char) (hb : hasBlock t = false) (ht : trim t = t) :
    extract_final_response t = t := by
  unfold extract_final_response
  by_cases hnil : t = []
  · rw [if_pos hnil]
  · rw [if_neg hnil, removeBlocks_of_no_block t hb, ht, if_neg hnil]

/-! ## Helper lemmas about `prepare` -/

theorem normalize_messages_ne_nil_of_truthy :
    ∀ v : PyVal, truthy v = true → normalize_messages v ≠ [] := by
  intro v h
  cases v with
  | str s => exact List.cons_ne_nil _ _
  | num q => exact List.cons_ne_nil _ _
  | bool b => exact List.cons_ne_nil _ _
  | obj r t => exact List.cons_ne_nil _ _
  | dict d => exact List.cons_ne_nil _ _
  | list l =>
    cases l with
    | nil => simp [truthy] at h
    | cons p t =>
      cases t with
      | nil => cases p <;> exact List.cons_ne_nil _ _
      | cons q t' => exact List.cons_ne_nil _ _

theorem locate_truthy_or_str (arg : Argument) :
    truthy (locate_prompts arg) = true ∨ ∃ s, locate_prompts arg = PyVal.str s := by
  unfold locate_prompts
  split
  · next h =>
    left
    cases hpre : arg.prop.preprocessed_input with
    | none => rw [hpre] at h; simp [optTruthy] at h
    | some v => rw [hpre] at h; simpa [optTruthy] using h
  · split
    · next h =>
      left
      cases hpro : arg.prop.processed_input with
      | none => rw [hpro] at h; simp [optTruthy] at h
      | some v => rw [hpro] at h; simpa [optTruthy] using h
    · split
      · split
        · exact Or.inr ⟨_, rfl⟩
        · exact Or.inr ⟨_, rfl⟩
      · exact Or.inr ⟨_, rfl⟩

theorem normalize_locate_ne_nil (arg : Argument) :
    normalize_messages (locate_prompts arg) ≠ [] := by
  rcases locate_truthy_or_str arg with h | ⟨s, h⟩
  · exact normalize_messages_ne_nil_of_truthy _ h
  · rw [h]; simp [normalize_messages]

/-! ## Helper lemmas about the `forward` error texts -/

theorem ne_of_elem8_ne {l₁ l₂ : List Char} (h : l₁[8]? ≠ l₂[8]?) : l₁ ≠ l₂ :=
  fun he => h (he ▸ rfl)

theorem apiFail_text_ne_auth (rest : List Char) :
    "Error: ".toList ++ ("API request failed (HTTP ".toList ++ rest)
      ≠ "Error: Authentication failed. Please check your API key.".toList := by
  intro h
  rw [← List.append_assoc] at h
  have hlit : ("Error: ".toList ++ "API request failed (HTTP ".toList)
      = "Error: API request failed (HTTP ".toList := by decide
  rw [hlit] at h
  have h8 : ("Error: API request failed (HTTP ".toList ++ rest)[8]? =
      ("Error: Authentication failed. Please check your API key.".toList)[8]? := by rw [h]
  rw [List.getElem?_append_left (by decide)] at h8
  exact absurd h8 (by decide)

theorem conn_text_ne_auth (msg : List Char) :
    "Error: API connection error: ".toList ++ msg
      ≠ "Error: Authentication failed. Please check your API key.".toList := by
  intro h
  have h8 : ("Error: API connection error: ".toList ++ msg)[8]? =
      ("Error: Authentication failed. Please check your API key.".toList)[8]? := by rw [h]
  rw [List.getElem?_append_left (by decide)] at h8
  exact absurd h8 (by decide)

/-! ## Claims about the reasoning-trace stripper -/

/-- C4 (corrected): the stripper is idempotent on every input whose
once-stripped result contains no remaining complete think-block (an open tag
later followed by a close tag); unrestricted idempotence fails, because
removing a block can splice surrounding fragments into a new complete block
that only a second pass strips. -/
theorem claim4_stripper_idempotent (s : List Char)
    (h : hasBlock (extract_final_response s) = false) :
    extract_final_response (extract_final_response s) = extract_final_response s :=
  extract_of_fixed (extract_final_response s) h (extract_trimmed s)

/-- C4 counterexample: on `"<t<think>a</think>hink>b</think>"` one
application of the stripper yields `"<think>b</think>"` and a second
application yields the empty string, so stripping twice differs from
stripping once. -/
theorem claim4_counterexample :
    extract_final_response (extract_final_response "<t<think>a</think>hink>b</think>".toList)
      ≠ extract_final_response "<t<think>a</think>hink>b</think>".toList := by
  decide

/-- C4 witness: a concrete input whose stripped result has no residual
think-block, on which stripping twice equals stripping once. -/
theorem claim4_witness :
    extract_final_response (extract_final_response "<think>a</think>Hello".toList)
      = extract_final_response "<think>a</think>Hello".toList :=
  claim4_stripper_idempotent "<think>a</think>Hello".toList (by decide)

/-- C5: whenever the input is nonempty and removing all think-blocks leaves
(after trimming) an empty string, the stripper returns the trimmed text after
the last close tag of the original, or the trimmed original when no close tag
occurs; and the close-tag-free input `"<think>unterminated"` comes back
unchanged, not as the empty string. -/
theorem claim5_stripper_fallback :
    (∀ s : List Char, s ≠ [] → trim (removeBlocks s) = [] →
        extract_final_response s =
          (match afterLastClose s with
           | some r => trim r
           | none => trim s))
    ∧ extract_final_response "<think>unterminated".toList = "<think>unterminated".toList := by
  constructor
  · intro s h1 h2
    unfold extract_final_response
    rw [if_neg h1, if_pos h2]
  · decide

/-- C5 witness: a concrete nonempty input entirely consumed by block removal,
on which the stripper takes the documented fallback. -/
theorem claim5_witness :
    extract_final_response "<think>x</think>".toList = [] := by
  have h := claim5_stripper_fallback.1 "<think>x</think>".toList (by decide) (by decide)
  rw [h]
  decide

/-- C6: removal strips every non-overlapping block spanning from an open tag
to the nearest following close tag — for any context `a`, block content `b`
(both free of the tags' opening character) and remainder `c`, the text around
the block is preserved and removal continues recursively on the remainder;
and the documented two-block example reduces to `"Keep1Keep2"`. -/
theorem claim6_block_removal :
    (∀ a b c : List Char, '<' ∉ a → '<' ∉ b →
        removeBlocks (a ++ (openTag ++ (b ++ (closeTag ++ c)))) = a ++ removeBlocks c)
    ∧ extract_final_response "<think>a</think>Keep1<think>b</think>Keep2".toList
        = "Keep1Keep2".toList :=
  ⟨removeBlocks_through, by decide⟩

/-- C6 witness: the removal law applied at a concrete one-block input. -/
theorem claim6_witness :
    removeBlocks ("A".toList ++ (openTag ++ ("b".toList ++ (closeTag ++ "C".toList))))
      = "A".toList ++ removeBlocks "C".toList :=
  claim6_block_removal.1 "A".toList "b".toList "C".toList (by decide) (by decide)

/-! ## Claims about `prepare` -/

/-- C2: for every request and either try-block outcome, both `prepare`
implementations (whose whole bodies are guarded by `except Exception`, so
they return `None` and never raise past their boundary) populate
`prepared_input` with a payload that carries the engine's model, a nonempty
`messages` list, `temperature`, `max_tokens`, and `stream = False`. -/
theorem claim2_prepare_total (modelName : List Char) (arg : Argument) (raised : Bool) :
    (OpenAIEngine.prepare modelName arg raised).model = modelName
    ∧ (OpenAIEngine.prepare modelName arg raised).messages ≠ []
    ∧ (OpenAIEngine.prepare modelName arg raised).stream = false
    ∧ (OllamaEngine.prepare modelName arg raised).model = modelName
    ∧ (OllamaEngine.prepare modelName arg raised).messages ≠ []
    ∧ (OllamaEngine.prepare modelName arg raised).stream = false := by
  cases raised
  · exact ⟨rfl, normalize_locate_ne_nil arg, rfl, rfl, normalize_locate_ne_nil arg, rfl⟩
  · exact ⟨rfl, List.cons_ne_nil _ _, rfl, rfl, List.cons_ne_nil _ _, rfl⟩

/-- C7: the prompt source is located with precedence preprocessed input →
processed input → instance value (merged with a truthy `context` option as
`Data: {instance}\nContext: {context}\nAnswer:`, else stringified) → the
fixed default prompt when no source is present and truthy. -/
theorem claim7_prompt_precedence :
    (∀ (arg : Argument) (v : PyVal), arg.prop.preprocessed_input = some v → truthy v = true →
        locate_prompts arg = v)
    ∧ (∀ (arg : Argument) (v : PyVal), optTruthy arg.prop.preprocessed_input = false →
        arg.prop.processed_input = some v → truthy v = true → locate_prompts arg = v)
    ∧ (∀ (arg : Argument) (v : PyVal), optTruthy arg.prop.preprocessed_input = false →
        optTruthy arg.prop.processed_input = false → arg.prop.instanceVal = some v →
        truthy v = true →
        locate_prompts arg =
          (if truthy (arg.kwargs.context.getD (.str [])) then
            .str (dataCtx v (arg.kwargs.context.getD (.str [])))
          else .str (pyStr v)))
    ∧ (∀ arg : Argument, optTruthy arg.prop.preprocessed_input = false →
        optTruthy arg.prop.processed_input = false → optTruthy arg.prop.instanceVal = false →
        locate_prompts arg = .str defaultPrompt) := by
  refine ⟨?_, ?_, ?_, ?_⟩
  · intro arg v h1 h2
    unfold locate_prompts
    rw [h1]
    simp [optTruthy, h2]
  · intro arg v h0 h1 h2
    unfold locate_prompts
    rw [h0, h1]
    simp [optTruthy, h2]
  · intro arg v h0 h1 h2 h3
    unfold locate_prompts
    rw [h0, h1, h2]
    simp [optTruthy, h3]
  · intro arg h0 h1 h2
    unfold locate_prompts
    rw [h0, h1, h2]
    simp

/-- C7 witness: a request with a truthy preprocessed input takes the first
branch of the precedence chain. -/
theorem claim7_witness :
    locate_prompts ⟨⟨some (.str "Hi".toList), none, none⟩,
        ⟨none, none, none, none, none, none, none⟩⟩ = .str "Hi".toList :=
  claim7_prompt_precedence.1 _ _ rfl (by decide)

/-- C8 (corrected): on any failure inside the try-block, both `prepare`
implementations fall back, without raising, to the fixed one-message payload
whose content is the default prompt string with default sampling parameters;
the fallback is independent of the request, so it is not built from the
original prompt source. -/
theorem claim8_prepare_fallback (modelName : List Char) (arg : Argument) :
    OpenAIEngine.prepare modelName arg true = fallbackPayload modelName
    ∧ OllamaEngine.prepare modelName arg true = fallbackPayload modelName
    ∧ (fallbackPayload modelName).messages = [userMsg defaultPrompt]
    ∧ (fallbackPayload modelName).temperature = .num (7 / 10)
    ∧ (fallbackPayload modelName).max_tokens = .num 2000
    ∧ (fallbackPayload modelName).stream = false :=
  ⟨rfl, rfl, rfl, rfl, rfl, rfl⟩

/-- C8 counterexample: under a failing preparation, the payload for a request
whose prompt source is "Hello" coincides with the payload for a request with
a different prompt source, and its message content is the fixed default
prompt rather than any representation of "Hello". -/
theorem claim8_counterexample :
    OpenAIEngine.prepare "gpt-4".toList
        ⟨⟨some (.str "Hello".toList), none, none⟩,
          ⟨none, none, none, none, none, none, none⟩⟩ true
      = OpenAIEngine.prepare "gpt-4".toList
        ⟨⟨some (.str "A different prompt".toList), none, none⟩,
          ⟨none, none, none, none, none, none, none⟩⟩ true
    ∧ (OpenAIEngine.prepare "gpt-4".toList
        ⟨⟨some (.str "Hello".toList), none, none⟩,
          ⟨none, none, none, none, none, none, none⟩⟩ true).messages
      = [userMsg defaultPrompt]
    ∧ defaultPrompt ≠ "Hello".toList :=
  ⟨rfl, rfl, by decide⟩

/-- C9: the normalizer maps each documented request shape to the documented
`messages` sequence — a plain string becomes one user message, a one-element
list keeps a dict verbatim and wraps anything else stringified, any other
list maps every element through the dict/wrap rule preserving order, any
other value is stringified and wrapped; and the documented scenario yields
exactly one user message with the prompt text and the default parameters. -/
theorem claim9_normalizer_shapes :
    (∀ s, normalize_messages (.str s) = [userMsg s])
    ∧ (∀ d, normalize_messages (.list [.dict d]) = [.dict d])
    ∧ (∀ p : PyVal, (∀ d, p ≠ .dict d) → normalize_messages (.list [p]) = [userMsg (pyStr p)])
    ∧ (∀ l : List PyVal, l.length ≠ 1 → normalize_messages (.list l) = l.map normElem)
    ∧ (∀ v : PyVal, (∀ s, v ≠ .str s) → (∀ l, v ≠ .list l) →
        normalize_messages v = [userMsg (pyStr v)])
    ∧ ((OpenAIEngine.prepare "gpt-4".toList scenarioArg false).messages
          = [userMsg "Translate to German: Hello".toList]
       ∧ (OpenAIEngine.prepare "gpt-4".toList scenarioArg false).temperature = .num (7 / 10)
       ∧ (OpenAIEngine.prepare "gpt-4".toList scenarioArg false).max_tokens = .num 2000
       ∧ (OpenAIEngine.prepare "gpt-4".toList scenarioArg false).stream = false) := by
  refine ⟨fun s => rfl, fun d => rfl, ?_, ?_, ?_, rfl, rfl, rfl, rfl⟩
  · intro p hp
    cases p with
    | dict d => exact absurd rfl (hp d)
    | str s => rfl
    | num q => rfl
    | bool b => rfl
    | list l => rfl
    | obj r t => rfl
  · intro l hl
    cases l with
    | nil => rfl
    | cons p t =>
      cases t with
      | nil => simp at hl
      | cons q t' => rfl
  · intro v h1 h2
    cases v with
    | str s => exact absurd rfl (h1 s)
    | list l => exact absurd rfl (h2 l)
    | num q => rfl
    | bool b => rfl
    | dict d => rfl
    | obj r t => rfl

/-- C9 witness: a one-element list holding a plain (non-dict) value is
wrapped as a stringified user message. -/
theorem claim9_witness :
    normalize_messages (.list [.obj "42".toList true]) = [userMsg "42".toList] := by
  have h := claim9_normalizer_shapes.2.2.1 (.obj "42".toList true) (fun d hd => by cases hd)
  exact h

/-- C10 (corrected): in both variants `temperature` defaults to 0.7 and
`max_tokens` to 2000 when not supplied, `stream` is always false, and
`top_p`, `frequency_penalty` and `presence_penalty` are copied into the
payload iff supplied; `stop` is copied iff supplied in the OpenAI variant
only — the Ollama variant never copies it. -/
theorem claim10_payload_options (modelName : List Char) (arg : Argument) :
    (OpenAIEngine.prepare modelName arg false).temperature
        = arg.kwargs.temperature.getD (.num (7 / 10))
    ∧ (OpenAIEngine.prepare modelName arg false).max_tokens
        = arg.kwargs.max_tokens.getD (.num 2000)
    ∧ (OpenAIEngine.prepare modelName arg false).stream = false
    ∧ (OpenAIEngine.prepare modelName arg false).top_p = arg.kwargs.top_p
    ∧ (OpenAIEngine.prepare modelName arg false).frequency_penalty
        = arg.kwargs.frequency_penalty
    ∧ (OpenAIEngine.prepare modelName arg false).presence_penalty
        = arg.kwargs.presence_penalty
    ∧ (OpenAIEngine.prepare modelName arg false).stop = arg.kwargs.stop
    ∧ (OllamaEngine.prepare modelName arg false).temperature
        = arg.kwargs.temperature.getD (.num (7 / 10))
    ∧ (OllamaEngine.prepare modelName arg false).max_tokens
        = arg.kwargs.max_tokens.getD (.num 2000)
    ∧ (OllamaEngine.prepare modelName arg false).stream = false
    ∧ (OllamaEngine.prepare modelName arg false).top_p = arg.kwargs.top_p
    ∧ (OllamaEngine.prepare modelName arg false).frequency_penalty
        = arg.kwargs.frequency_penalty
    ∧ (OllamaEngine.prepare modelName arg false).presence_penalty
        = arg.kwargs.presence_penalty
    ∧ (OllamaEngine.prepare modelName arg false).stop = none :=
  ⟨rfl, rfl, rfl, rfl, rfl, rfl, rfl, rfl, rfl, rfl, rfl, rfl, rfl, rfl⟩

/-- C10 counterexample: a request supplying the `stop` option is prepared by
the Ollama variant into a payload with no `stop` key. -/
theorem claim10_counterexample :
    (OllamaEngine.prepare "deepseek-r1:14b".toList
        ⟨⟨some (.str "Hi".toList), none, none⟩,
          ⟨none, none, none, none, none, none, some (.str "END".toList)⟩⟩ false).stop = none
    ∧ (⟨none, none, none, none, none, none, some (.str "END".toList)⟩ : Kwargs).stop ≠ none :=
  ⟨rfl, by simp⟩

/-! ## Claims about `forward` -/

/-- C1 (corrected): under every provider behaviour both `forward`
implementations return normally with a pair of a one-element text list and a
metadata mapping — the same shape as the success path; every failure path of
the OpenAI variant (4xx/5xx status, undecodable body, missing or empty
choices, empty cleaned text, network or unexpected exception) carries
`error = true` in its metadata and the success path carries no error flag,
while the Ollama variant never sets an error flag — its failures are encoded
only in the returned text. -/
theorem claim1_forward_shape :
    (∀ (mn url : List Char) (b : Behavior),
        (OpenAIEngine.forward mn url b).1.length = 1
        ∧ (OllamaEngine.forward mn url b).1.length = 1)
    ∧ (∀ mn url msg : List Char,
        (OpenAIEngine.forward mn url (.netErr msg)).2.error = some true)
    ∧ (∀ mn url msg : List Char,
        (OpenAIEngine.forward mn url (.unexpected msg)).2.error = some true)
    ∧ (∀ (mn url r : List Char) (body : Option PyVal) (s : Nat), 400 ≤ s → s ≤ 599 →
        (OpenAIEngine.forward mn url (.ok s r body)).2.error = some true)
    ∧ (∀ (mn url r : List Char) (s : Nat), ¬(400 ≤ s ∧ s ≤ 599) →
        (OpenAIEngine.forward mn url (.ok s r none)).2.error = some true)
    ∧ (∀ (mn url r : List Char) (result : PyVal) (s : Nat), ¬(400 ≤ s ∧ s ≤ 599) →
        getRawContent result = .ok none →
        (OpenAIEngine.forward mn url (.ok s r (some result))).2.error = some true)
    ∧ (∀ (mn url r m : List Char) (result : PyVal) (s : Nat), ¬(400 ≤ s ∧ s ≤ 599) →
        getRawContent result = .error m →
        (OpenAIEngine.forward mn url (.ok s r (some result))).2.error = some true)
    ∧ (∀ (mn url r raw : List Char) (result : PyVal) (s : Nat), ¬(400 ≤ s ∧ s ≤ 599) →
        getRawContent result = .ok (some raw) → extract_final_response raw = [] →
        (OpenAIEngine.forward mn url (.ok s r (some result))).2.error = some true)
    ∧ (∀ (mn url r raw : List Char) (result : PyVal) (s : Nat), ¬(400 ≤ s ∧ s ≤ 599) →
        getRawContent result = .ok (some raw) → extract_final_response raw ≠ [] →
        (OpenAIEngine.forward mn url (.ok s r (some result))).1 = [extract_final_response raw]
        ∧ (OpenAIEngine.forward mn url (.ok s r (some result))).2.error = none)
    ∧ (∀ (mn url : List Char) (b : Behavior),
        (OllamaEngine.forward mn url b).2.error = none) := by
  refine ⟨?_, fun _ _ _ => rfl, fun _ _ _ => rfl, ?_, ?_, ?_, ?_, ?_, ?_, ?_⟩
  · intro mn url b
    constructor
    · cases b with
      | netErr m => rfl
      | unexpected m => rfl
      | ok s r body =>
        unfold OpenAIEngine.forward
        dsimp only
        repeat' split
        all_goals rfl
    · cases b with
      | netErr m => rfl
      | unexpected m => rfl
      | ok s r body =>
        unfold OllamaEngine.forward
        dsimp only
        repeat' split
        all_goals rfl
  · intro mn url r body s h4 h5
    simp [OpenAIEngine.forward, h4, h5]
  · intro mn url r s h
    simp [OpenAIEngine.forward, h]
  · intro mn url r result s h hres
    simp [OpenAIEngine.forward, h, hres]
  · intro mn url r m result s h hres
    simp [OpenAIEngine.forward, h, hres]
  · intro mn url r raw result s h hres hclean
    simp [OpenAIEngine.forward, h, hres, hclean]
  · intro mn url r raw result s h hres hclean
    constructor
    · simp [OpenAIEngine.forward, h, hres, hclean]
    · simp [OpenAIEngine.forward, h, hres, hclean]
  · intro mn url b
    cases b with
    | netErr m => rfl
    | unexpected m => rfl
    | ok s r body =>
      unfold OllamaEngine.forward
      dsimp only
      repeat' split
      all_goals rfl

/-- C1 witness: a concrete 4xx response yields the error flag in the OpenAI
variant's metadata. -/
theorem claim1_witness :
    (OpenAIEngine.forward "gpt-4".toList "https://api.openai.com/v1".toList
        (.ok 500 "Internal Server Error".toList none)).2.error = some true :=
  claim1_forward_shape.2.2.2.1 "gpt-4".toList "https://api.openai.com/v1".toList
    "Internal Server Error".toList none 500 (by norm_num) (by norm_num)

/-- C1 counterexample: a network failure makes the Ollama variant return an
error text, yet its metadata carries no error flag at all. -/
theorem claim1_counterexample :
    (OllamaEngine.forward "deepseek-r1:14b".toList "http://localhost:11434/v1".toList
        (.netErr "connection refused".toList)).2.error = none
    ∧ (OllamaEngine.forward "deepseek-r1:14b".toList "http://localhost:11434/v1".toList
        (.netErr "connection refused".toList)).1
      = ["Error: Ollama API request failed: connection refused".toList] :=
  ⟨rfl, by decide⟩

/-- C3 (corrected): for every 4xx/5xx provider status the OpenAI variant
returns metadata with `status = "api_error"`, the HTTP status code in
`http_status` and the error flag, with an authentication-specific message
exactly for 401, distinct from every other status's message and from the
connection-error message; the Ollama variant instead returns the generic
request-failure text with its base metadata and no status field. -/
theorem claim3_api_error_classification :
    (∀ (mn url r : List Char) (body : Option PyVal) (s : Nat), 400 ≤ s → s ≤ 599 →
        (OpenAIEngine.forward mn url (.ok s r body)).2.status = some "api_error".toList
        ∧ (OpenAIEngine.forward mn url (.ok s r body)).2.http_status = some s
        ∧ (OpenAIEngine.forward mn url (.ok s r body)).2.error = some true)
    ∧ (∀ (mn url r : List Char) (body : Option PyVal),
        (OpenAIEngine.forward mn url (.ok 401 r body)).1
          = ["Error: Authentication failed. Please check your API key.".toList])
    ∧ (∀ (mn url r : List Char) (body : Option PyVal) (s : Nat), 400 ≤ s → s ≤ 599 → s ≠ 401 →
        (OpenAIEngine.forward mn url (.ok s r body)).1
          ≠ ["Error: Authentication failed. Please check your API key.".toList])
    ∧ (∀ mn url msg : List Char,
        (OpenAIEngine.forward mn url (.netErr msg)).1
          ≠ ["Error: Authentication failed. Please check your API key.".toList]
        ∧ (OpenAIEngine.forward mn url (.netErr msg)).2.status
          = some "connection_error".toList)
    ∧ (∀ (mn url r : List Char) (body : Option PyVal) (s : Nat), 400 ≤ s → s ≤ 599 →
        (OllamaEngine.forward mn url (.ok s r body)).2.status = none
        ∧ (OllamaEngine.forward mn url (.ok s r body)).1
          = ["Error: Ollama API request failed: ".toList
              ++ httpErrorString s r (url ++ "/chat/completions".toList)]) := by
  refine ⟨?_, ?_, ?_, ?_, ?_⟩
  · intro mn url r body s h4 h5
    refine ⟨?_, ?_, ?_⟩ <;> simp [OpenAIEngine.forward, h4, h5]
  · intro mn url r body
    have h4 : (400 : Nat) ≤ 401 := by norm_num
    have h5 : (401 : Nat) ≤ 599 := by norm_num
    simp [OpenAIEngine.forward, h4, h5]
  · intro mn url r body s h4 h5 hne
    simp only [OpenAIEngine.forward, if_pos (And.intro h4 h5), if_neg hne]
    intro h
    rw [List.cons.injEq] at h
    exact apiFail_text_ne_auth _ h.1
  · intro mn url msg
    constructor
    · intro h
      have h' : ["Error: API connection error: ".toList ++ msg]
          = ["Error: Authentication failed. Please check your API key.".toList] := h
      rw [List.cons.injEq] at h'
      exact conn_text_ne_auth msg h'.1
    · rfl
  · intro mn url r body s h4 h5
    refine ⟨?_, ?_⟩ <;> simp [OllamaEngine.forward, h4, h5]

/-- C3 witness: a concrete 401 response is classified as an api_error with
the status code in metadata. -/
theorem claim3_witness :
    (OpenAIEngine.forward "gpt-4".toList "https://api.openai.com/v1".toList
        (.ok 401 "Unauthorized".toList none)).2.status = some "api_error".toList :=
  (claim3_api_error_classification.1 "gpt-4".toList "https://api.openai.com/v1".toList
    "Unauthorized".toList none 401 (by norm_num) (by norm_num)).1

/-- C3 counterexample: a 401 response handed to the Ollama variant does not
produce `status = "api_error"` in its metadata — the metadata has no status
field at all. -/
theorem claim3_counterexample :
    (OllamaEngine.forward "deepseek-r1:14b".toList "http://localhost:11434/v1".toList
        (.ok 401 "Unauthorized".toList none)).2.status ≠ some "api_error".toList := by
  decide

end SymaiDemo
